import Mathlib

/-!
# Verification of the 8mu-demo simulation core

Shallow embedding of the particle/terrain simulation implemented in the
p5 sketch (the `updateOrganicModel` revision with 14 MIDI channels).

Modelling conventions:

* JS numbers are embedded as exact rationals (`ℚ`).  The sketch's physics
  calls into p5 library facilities that are not part of the repository:
  `Math.sqrt` (via `p5.Vector.mag`/`normalize`/`dist`), `p.noise`
  (Perlin noise) and `p.random`/`Math.random`.  These are abstracted as
  explicit parameters: `sq : ℚ → ℚ` (square root), `noise : ℚ → ℚ → ℚ`
  (2-argument Perlin noise; the 1-argument form is `noise a 0`), and a
  random stream `rand : ℕ → ℚ` consumed through an explicitly threaded
  index, in exactly the call order of the source.
* `p.frameCount` is passed in as a natural number parameter.
* The p5 colour objects attached to particles and terrain cells are
  draw-only data; particle colour is omitted and terrain colour is kept
  as the 5-band enumeration chosen by `getTerrainColor`.
* The JS `-Infinity` sentinel returned by `checkTerrainCollision` for
  the no-collision case is embedded as `none : Option ℚ`.
-/

/-- 3-component vector over exact rationals (embeds `p5.Vector`). -/
structure Vec3 where
  x : ℚ
  y : ℚ
  z : ℚ
deriving DecidableEq, Repr

instance : Inhabited Vec3 := ⟨⟨0, 0, 0⟩⟩

def vadd (a b : Vec3) : Vec3 := ⟨a.x + b.x, a.y + b.y, a.z + b.z⟩

def vsub (a b : Vec3) : Vec3 := ⟨a.x - b.x, a.y - b.y, a.z - b.z⟩

def vscale (c : ℚ) (a : Vec3) : Vec3 := ⟨c * a.x, c * a.y, c * a.z⟩

def vdot (a b : Vec3) : ℚ := a.x * b.x + a.y * b.y + a.z * b.z

/-- `p5.Vector.cross`. -/
def vcross (a b : Vec3) : Vec3 :=
  ⟨a.y * b.z - a.z * b.y, a.z * b.x - a.x * b.z, a.x * b.y - a.y * b.x⟩

/-- Squared Euclidean norm (the value whose square root `p5.Vector.mag`
computes). -/
def norm2 (a : Vec3) : ℚ := a.x * a.x + a.y * a.y + a.z * a.z

/-- `p5.Vector.mag`, with the square root abstracted as `sq`. -/
def vmag (sq : ℚ → ℚ) (a : Vec3) : ℚ := sq (norm2 a)

/-- `p5.Vector.normalize`: divide by the magnitude when it is nonzero. -/
def vnormalize (sq : ℚ → ℚ) (a : Vec3) : Vec3 :=
  let m := vmag sq a
  if m = 0 then a else vscale (1 / m) a

/-- `p5.Vector.dist a b = mag (sub a b)`. -/
def vdist (sq : ℚ → ℚ) (a b : Vec3) : ℚ := vmag sq (vsub a b)

/-- p5's `map(n, start1, stop1, start2, stop2)` (no clamping). -/
def pmap (n start1 stop1 start2 stop2 : ℚ) : ℚ :=
  (n - start1) / (stop1 - start1) * (stop2 - start2) + start2

/-- p5's `lerp(a, b, t)`. -/
def lerp (a b t : ℚ) : ℚ := a + (b - a) * t

/-- p5's `constrain(n, low, high) = min (max n low) high`. -/
def constrain (n low high : ℚ) : ℚ := min (max n low) high

/-- p5's `bezierPoint(a, b, c, d, t)` (cubic Bézier). -/
def bezierPoint (a b c d t : ℚ) : ℚ :=
  a * (1 - t) ^ 3 + 3 * b * t * (1 - t) ^ 2 + 3 * c * t ^ 2 * (1 - t) + d * t ^ 3

/-- Truncation toward zero, as used by the JS `%` operator. -/
def ratTrunc (q : ℚ) : ℤ := if 0 ≤ q then ⌊q⌋ else ⌈q⌉

/-- The JS remainder operator `a % b` on numbers (sign follows `a`). -/
def jsMod (a b : ℚ) : ℚ := a - b * (ratTrunc (a / b) : ℚ)

/-- `p.random(lo, hi)` reading the stream value at index `idx`. -/
def randIn (rand : ℕ → ℚ) (idx : ℕ) (lo hi : ℚ) : ℚ :=
  lo + (hi - lo) * rand idx

/-! ## MIDI control state and gesture smoothing -/

/-- The `midiParams` record (binding table and UI names omitted:
presentation-layer data). -/
structure MidiParams where
  faderValues : Fin 14 → ℚ
  smoothedValues : Fin 14 → ℚ
  smoothingFactor : ℚ
deriving Inhabited

/-- One application of the adaptive smoothing assignment
`smoothed += (raw - smoothed) * f * (1 + raw * 2)` from
`smoothGestureValues`. -/
def smoothStep (f r s : ℚ) : ℚ := s + (r - s) * (f * (1 + r * 2))

/-- `smoothGestureValues`: channels 8..13 are smoothed adaptively,
channels 0..7 are copied through. -/
def smoothGestureValues (mp : MidiParams) : Fin 14 → ℚ :=
  fun i =>
    if 8 ≤ (i : ℕ) then
      smoothStep mp.smoothingFactor (mp.faderValues i) (mp.smoothedValues i)
    else mp.faderValues i

/-- Iterating the smoothing step on one gesture channel with the
source's base factor `0.15` and a constant raw value `r`. -/
def smoothIter (r s : ℚ) : ℕ → ℚ
  | 0 => s
  | n + 1 => smoothStep (3/20) r (smoothIter r s n)

/-! ## Per-tick parameter mapping -/

/-- The eight physical parameters computed from the smoothed values at
the top of `updateOrganicModel`. -/
structure MappedParams where
  size : ℚ
  speed : ℚ
  gravity : ℚ
  turbulenceValue : ℚ
  randomness : ℚ
  particleDensity : ℚ
  connectionDensity : ℚ
  terrainHeight : ℚ
deriving DecidableEq, Repr

/-- The linear range mapping block of `updateOrganicModel`. -/
def mapParams (sv : Fin 14 → ℚ) : MappedParams :=
  { size := pmap (sv 0) 0 1 (1/2) 2
    speed := pmap (sv 1) 0 1 (1/10) 2
    gravity := pmap (sv 2) 0 1 (1/100) (1/5)
    turbulenceValue := pmap (sv 3) 0 1 (1/100) (3/10)
    randomness := pmap (sv 4) 0 1 (1/100) (1/5)
    particleDensity := pmap (sv 5) 0 1 (1/5) 1
    connectionDensity := pmap (sv 6) 0 1 0 1
    terrainHeight := pmap (sv 7) 0 1 20 200 }

/-! ## Camera rotations

Angles are represented as rational multiples of π (a value `q` stands
for the angle `q·π` radians): the sketch only ever maps control values
into `±π/4`, adds `π/12` increments and reduces modulo `2π`, so the
coefficient arithmetic is exact over `ℚ`.  `π/12` is `1/12`, `2π` is
`2`. -/

structure CameraRot where
  zRotation : ℚ
  xRotation : ℚ
  yRotation : ℚ
deriving DecidableEq, Repr

/-- The discrete 15° yaw detent of `updateOrganicModel` (in π-units:
the increment `Math.PI / 12` is `1/12`, the normalisation
`(y + 2π) % 2π` is `jsMod (y + 2) 2`). -/
def updateYRotation (rotateRight rotateLeft y : ℚ) : ℚ :=
  let rotationInput := rotateRight - rotateLeft
  if 1/2 < |rotationInput| then
    let y2 := if 0 < rotationInput then y + 1/12 else y - 1/12
    jsMod (y2 + 2) 2
  else y

/-- The camera block of `updateOrganicModel` (π-units). -/
def cameraPhase (sv : Fin 14 → ℚ) (cam : CameraRot) : CameraRot :=
  { zRotation := pmap (sv 8 - sv 9) (-1) 1 (-(1/4)) (1/4)
    xRotation := pmap (sv 10 - sv 11) (-1) 1 (-(1/4)) (1/4)
    yRotation := updateYRotation (sv 12) (sv 13) cam.yRotation }

/-- `forceParams`, recomputed each tick from the gesture channels. -/
structure ForceParams where
  vortexStrength : ℚ
  gravityStrength : ℚ
deriving DecidableEq, Repr

def forcesPhase (sv : Fin 14 → ℚ) : ForceParams :=
  { vortexStrength := pmap (sv 8 + sv 9) 0 2 0 (1/20)
    gravityStrength := pmap (sv 10 + sv 11) 0 2 0 (1/10) }

/-! ## Particles, terrain and connections -/

/-- A particle of the organic model (`createParticle`'s record; the
p5 colour object is draw-only and omitted). -/
structure Particle where
  position : Vec3
  velocity : Vec3
  size : ℚ
  fixedSize : ℚ
  originalPosition : Vec3
  controlPoints : List Vec3
  bezierT : ℚ
  bezierDirection : ℚ
  noiseOffset : ℚ
  terrainHits : ℕ
  lastCollisionTime : ℕ
deriving DecidableEq, Repr

instance : Inhabited Particle :=
  ⟨⟨default, default, 0, 0, default, [], 0, 1, 0, 0, 0⟩⟩

/-- The five colour bands of `getTerrainColor`. -/
inductive TerrainBand where
  | deepWater
  | shallowWater
  | lowGround
  | mediumHeight
  | highGround
deriving DecidableEq, Repr

/-- `getTerrainColor`, as the band selected by the height thresholds. -/
def getTerrainColor (height maxHeight : ℚ) : TerrainBand :=
  if height < -maxHeight * (3/10) then .deepWater
  else if height < -maxHeight * (1/10) then .shallowWater
  else if height < maxHeight * (2/10) then .lowGround
  else if height < maxHeight * (4/10) then .mediumHeight
  else .highGround

/-- One cell of the terrain grid. -/
structure TerrainCell where
  position : Vec3
  color : TerrainBand
deriving DecidableEq, Repr

instance : Inhabited TerrainCell := ⟨⟨default, .lowGround⟩⟩

abbrev Terrain := List (List TerrainCell)

/-- `terrain[x][z]` (in-range in every reachable use: the grid is
always produced by `generateTerrain` at the model's resolution). -/
def terrainCellAt (terrain : Terrain) (x z : ℕ) : TerrainCell :=
  (terrain.getD x []).getD z default

/-- A proximity connection (`createConnections`' record). -/
structure Connection where
  fromIndex : ℕ
  toIndex : ℕ
  strength : ℚ
  maxLength : ℚ
deriving DecidableEq, Repr

/-- `generateTerrain`: heightfield from four octaves of noise, mapped
into `[-terrainHeight/2, terrainHeight/2]`. -/
def generateTerrain (noise : ℚ → ℚ → ℚ) (resolution : ℕ) (size terrainHeight : ℚ) :
    Terrain :=
  let noiseScale : ℚ := 1/50
  (List.range resolution).map fun x =>
    (List.range resolution).map fun z =>
      let xPos := pmap (x : ℚ) 0 ((resolution : ℚ) - 1) (-size/2) (size/2)
      let zPos := pmap (z : ℚ) 0 ((resolution : ℚ) - 1) (-size/2) (size/2)
      let baseNoise := noise (xPos * noiseScale) (zPos * noiseScale)
      let detailNoise := noise (xPos * noiseScale * 3) (zPos * noiseScale * 3) * (3/10)
      let microNoise := noise (xPos * noiseScale * 8) (zPos * noiseScale * 8) * (3/20)
      let ridgeNoise := |noise (xPos * noiseScale * 2) (zPos * noiseScale * 2) - 1/2| * (1/2)
      let height := pmap (baseNoise + detailNoise + microNoise + ridgeNoise)
        0 (9/5) (-terrainHeight/2) (terrainHeight/2)
      { position := ⟨xPos, height, zPos⟩
        color := getTerrainColor height terrainHeight }

/-! ## Terrain collision query -/

/-- The grid x-coordinate `Math.floor(map(x, -size/2, size/2, 0, resolution-1))`
computed by `checkTerrainCollision`. -/
def gridCoord (size : ℚ) (resolution : ℕ) (x : ℚ) : ℤ :=
  ⌊pmap x (-size/2) (size/2) 0 ((resolution : ℚ) - 1)⌋

/-- The bilinear terrain height interpolated between the four grid
points around `(x, z)` in cell `(gx, gz)`. -/
def bilinearHeight (terrain : Terrain) (gx gz : ℕ) (x z : ℚ) : ℚ :=
  let p00 := (terrainCellAt terrain gx gz).position
  let p10 := (terrainCellAt terrain (gx+1) gz).position
  let p01 := (terrainCellAt terrain gx (gz+1)).position
  let p11 := (terrainCellAt terrain (gx+1) (gz+1)).position
  let xRatio := pmap x p00.x p10.x 0 1
  let zRatio := pmap z p00.z p01.z 0 1
  let h1 := lerp p00.y p10.y xRatio
  let h2 := lerp p01.y p11.y xRatio
  lerp h1 h2 zRatio

/-- The cross product of the two edge vectors of cell `(gx, gz)`. -/
def cellCross (terrain : Terrain) (gx gz : ℕ) : Vec3 :=
  let p00 := (terrainCellAt terrain gx gz).position
  let p10 := (terrainCellAt terrain (gx+1) gz).position
  let p01 := (terrainCellAt terrain gx (gz+1)).position
  vcross (vsub p10 p00) (vsub p01 p00)

/-- The upward-oriented surface normal of cell `(gx, gz)`: cross
product of the two edge vectors, normalised, flipped upward. -/
def cellNormal (sq : ℚ → ℚ) (terrain : Terrain) (gx gz : ℕ) : Vec3 :=
  let normal := vnormalize sq (cellCross terrain gx gz)
  if normal.y < 0 then vscale (-1) normal else normal

/-- Result record of `checkTerrainCollision`.  `terrainHeight = none`
embeds the JS `-Infinity` sentinel of the no-collision branch. -/
structure CollisionResult where
  collision : Bool
  normal : Vec3
  terrainHeight : Option ℚ
  penetrationDepth : ℚ
  velocityMagnitude : ℚ
deriving DecidableEq, Repr

/-- The record returned when there is no collision (JS
`terrainHeight: -Infinity` becomes `none`). -/
def noCollisionResult : CollisionResult :=
  { collision := false
    normal := ⟨0, 1, 0⟩
    terrainHeight := none
    penetrationDepth := 0
    velocityMagnitude := 0 }

/-- `checkTerrainCollision`. -/
def checkTerrainCollision (sq : ℚ → ℚ) (terrain : Terrain) (resolution : ℕ)
    (size : ℚ) (particle : Particle) : CollisionResult :=
  let gridX := gridCoord size resolution particle.position.x
  let gridZ := gridCoord size resolution particle.position.z
  if 0 ≤ gridX ∧ gridX < (resolution : ℤ) - 1 ∧ 0 ≤ gridZ ∧ gridZ < (resolution : ℤ) - 1 then
    let gx := gridX.toNat
    let gz := gridZ.toNat
    let terrainHeight := bilinearHeight terrain gx gz particle.position.x particle.position.z
    let normal := cellNormal sq terrain gx gz
    let penetrationDepth := (terrainHeight + particle.size * (1/2)) - particle.position.y
    if 0 < penetrationDepth then
      { collision := true
        normal := normal
        terrainHeight := some terrainHeight
        penetrationDepth := penetrationDepth
        velocityMagnitude := vmag sq particle.velocity }
    else noCollisionResult
  else noCollisionResult

/-! ## Terrain bounce with hit debounce -/

/-- The debounced hit counter update inside the bounce branch of
`updateOrganicModel`: count a hit only when more than 10 frames have
passed since the last counted hit.  Returns `(terrainHits,
lastCollisionTime)`. -/
def collisionDebounce (currentTime hits lastCollisionTime : ℕ) : ℕ × ℕ :=
  if 10 < currentTime - lastCollisionTime then (hits + 1, currentTime)
  else (hits, lastCollisionTime)

/-- Iterated debounce for a particle that intersects the terrain on
every consecutive tick `t0, t0+1, ...` (state = `(hits, last)`). -/
def debounceRun (t0 : ℕ) (s : ℕ × ℕ) : ℕ → ℕ × ℕ
  | 0 => s
  | n + 1 =>
    let prev := debounceRun t0 s n
    collisionDebounce (t0 + n) prev.1 prev.2

/-- The terrain-collision branch of the particle update (reposition
above the surface, reflect the velocity about the surface normal,
damp, add a bounce impulse).  In the unreachable-by-collision entry
(`collision = false` but `y < -terrainHeight`), the JS source sets
`position.y` to `-Infinity + size*0.8 = -Infinity`; that float value
has no rational counterpart, and the model leaves `y` unchanged there
(no claim depends on this branch's position). -/
def applyTerrainBounce (sq : ℚ → ℚ) (currentTime : ℕ) (speed terrainHeightParam : ℚ)
    (terrain : Terrain) (resolution : ℕ) (size : ℚ) (p : Particle) : Particle :=
  let tc := checkTerrainCollision sq terrain resolution size p
  if tc.collision = true ∨ p.position.y < -terrainHeightParam then
    let db := collisionDebounce currentTime p.terrainHits p.lastCollisionTime
    let newY :=
      match tc.terrainHeight with
      | some h => h + p.size * (4/5)
      | none => p.position.y
    let dotv := vdot p.velocity tc.normal
    let reflected := vsub p.velocity (vscale (2 * dotv) tc.normal)
    let damped := vscale (7/10) reflected
    let bounced := vadd damped (vscale ((1/2) * speed) tc.normal)
    { p with
      position := ⟨p.position.x, newY, p.position.z⟩
      velocity := bounced
      terrainHits := db.1
      lastCollisionTime := db.2 }
  else p

/-! ## The organic model state -/

/-- The `organicModel` record (`centerX/Y/Z` are unused by the
simulation and omitted). -/
structure OrganicModel where
  particles : List Particle
  numParticles : ℕ
  connections : List Connection
  terrain : Terrain
  terrainResolution : ℕ
  terrainSize : ℚ
  terrainHeight : ℚ
  particleDensity : ℚ
  connectionDensity : ℚ
  particlesToAdd : List Particle
  particlesToRemove : List ℤ
  minParticles : ℕ

/-- `createParticle()` (argless call sites only — the positional form
is never used in this revision).  Consumes 18 stream values in source
order: x, z, 12 control-point offsets, 3 velocity components, and the
noise offset.  Returns the particle and the next stream index. -/
def createParticle (noise : ℚ → ℚ → ℚ) (rand : ℕ → ℚ) (terrainSize terrainHeight : ℚ)
    (idx : ℕ) : Particle × ℕ :=
  let x := randIn rand idx (-terrainSize/2) (terrainSize/2)
  let z := randIn rand (idx+1) (-terrainSize/2) (terrainSize/2)
  let y := pmap (noise (x * (1/100)) (z * (1/100))) 0 1 (-terrainHeight/2) (terrainHeight/2)
  let sizeNoise := noise (x * (1/20)) (z * (1/20))
  let fixedSize := pmap sizeNoise 0 1 4 12
  let cp (k : ℕ) : Vec3 :=
    ⟨x + randIn rand (idx+2+3*k) (-50) 50,
     y + randIn rand (idx+3+3*k) (-30) 30,
     z + randIn rand (idx+4+3*k) (-50) 50⟩
  let particle : Particle :=
    { position := ⟨x, y, z⟩
      velocity := ⟨randIn rand (idx+14) (-(1/2)) (1/2),
                   randIn rand (idx+15) (-(1/5)) (1/5),
                   randIn rand (idx+16) (-(1/2)) (1/2)⟩
      size := fixedSize
      fixedSize := fixedSize
      originalPosition := ⟨x, y, z⟩
      controlPoints := [cp 0, cp 1, cp 2, cp 3]
      bezierT := 0
      bezierDirection := 1
      noiseOffset := randIn rand (idx+17) 0 1000
      terrainHits := 0
      lastCollisionTime := 0 }
  (particle, idx + 18)

/-- Spawn `count` particles with `createParticle()`, in order. -/
def spawnList (noise : ℚ → ℚ → ℚ) (rand : ℕ → ℚ) (terrainSize terrainHeight : ℚ) :
    ℕ → ℕ → List Particle × ℕ
  | 0, idx => ([], idx)
  | n + 1, idx =>
    let r := createParticle noise rand terrainSize terrainHeight idx
    let rest := spawnList noise rand terrainSize terrainHeight n r.2
    (r.1 :: rest.1, rest.2)

/-- The connections pushed for one particle `i` from its chosen
neighbour list (index/distance pairs), consuming one stream value per
connection for the spring strength `p.random(0.01, 0.03)`. -/
def connectionsForParticle (rand : ℕ → ℚ) (idx : ℕ) (i : ℕ) :
    List (ℕ × ℚ) → List Connection × ℕ
  | [] => ([], idx)
  | (j, d) :: rest =>
    let tail := connectionsForParticle rand (idx + 1) i rest
    ({ fromIndex := i, toIndex := j,
       strength := randIn rand idx (1/100) (3/100),
       maxLength := d * (3/2) } :: tail.1, tail.2)

/-- The body of `createConnections`' outer loop, iterated over the
particle indices in `is`. -/
def createConnectionsAux (sq : ℚ → ℚ) (rand : ℕ → ℚ) (connectionDensity : ℚ)
    (ps : List Particle) (idx : ℕ) : List ℕ → List Connection × ℕ
  | [] => ([], idx)
  | i :: rest =>
    let pi := ps.getD i default
    let distances := ((List.range ps.length).filter (fun j => j ≠ i)).map
      (fun j => (j, vdist sq (ps.getD j default).position pi.position))
    let sorted := distances.mergeSort (fun a b => a.2 ≤ b.2)
    let maxPossibleConnections := min 5 distances.length
    let numConnections := (⌊(maxPossibleConnections : ℚ) * connectionDensity⌋).toNat
    let mine := connectionsForParticle rand idx i (sorted.take numConnections)
    let tail := createConnectionsAux sq rand connectionDensity ps mine.2 rest
    (mine.1 ++ tail.1, tail.2)

/-- `createConnections`: k-nearest-neighbour proximity graph (stable
sort by distance, as JS `Array.prototype.sort` with a numeric
comparator). -/
def createConnections (sq : ℚ → ℚ) (rand : ℕ → ℚ) (idx : ℕ) (connectionDensity : ℚ)
    (ps : List Particle) : List Connection × ℕ :=
  if connectionDensity ≤ 0 then ([], idx)
  else createConnectionsAux sq rand connectionDensity ps idx (List.range ps.length)

/-- `initOrganicModel`: regenerate terrain, spawn
`floor(numParticles * particleDensity)` particles, rebuild
connections. -/
def initOrganicModel (sq : ℚ → ℚ) (noise : ℚ → ℚ → ℚ) (rand : ℕ → ℚ) (idx : ℕ)
    (om : OrganicModel) : OrganicModel × ℕ :=
  let terrain := generateTerrain noise om.terrainResolution om.terrainSize om.terrainHeight
  let actualParticles := (⌊(om.numParticles : ℚ) * om.particleDensity⌋).toNat
  let ps := spawnList noise rand om.terrainSize om.terrainHeight actualParticles idx
  let conns := createConnections sq rand ps.2 om.connectionDensity ps.1
  ({ om with terrain := terrain, particles := ps.1, connections := conns.1 }, conns.2)

/-! ## The tick phases of `updateOrganicModel` -/

/-- Terrain hysteresis: regenerate the terrain wholesale only when the
mapped terrain-height parameter drifts more than 5 units from the
currently-baked value. -/
def terrainPhase (noise : ℚ → ℚ → ℚ) (om : OrganicModel) (mappedTerrainHeight : ℚ) :
    OrganicModel :=
  if 5 < |om.terrainHeight - mappedTerrainHeight| then
    { om with
      terrainHeight := mappedTerrainHeight
      terrain := generateTerrain noise om.terrainResolution om.terrainSize mappedTerrainHeight }
  else om

/-- The position/velocity transfer loop after reinitialisation
(`for i < min(old.length, new.length)`). -/
def transferPositions : List Particle → List Particle → List Particle
  | ns, [] => ns
  | [], _ => []
  | n :: ns, o :: os =>
    { n with position := o.position, velocity := o.velocity } :: transferPositions ns os

/-- The body of the density-change branch once its condition fired.
Note the source first assigns the new `connectionDensity` and then
compares it against itself, so the inner `if` is always false and a
full `initOrganicModel()` always runs; the dead branch is embedded as
written. -/
def densityFire (sq : ℚ → ℚ) (noise : ℚ → ℚ → ℚ) (rand : ℕ → ℚ) (idx : ℕ)
    (om : OrganicModel) (particleDensity connectionDensity : ℚ) : OrganicModel × ℕ :=
  let om1 := { om with
    particleDensity := particleDensity, connectionDensity := connectionDensity }
  let oldParticles := om1.particles
  if 1/10 < |om1.connectionDensity - connectionDensity| then
    let conns := createConnections sq rand idx om1.connectionDensity om1.particles
    ({ om1 with connections := conns.1 }, conns.2)
  else
    let r := initOrganicModel sq noise rand idx om1
    ({ r.1 with particles := transferPositions r.1.particles oldParticles }, r.2)

/-- The density-change branch of `updateOrganicModel`. -/
def densityPhase (sq : ℚ → ℚ) (noise : ℚ → ℚ → ℚ) (rand : ℕ → ℚ) (idx : ℕ)
    (om : OrganicModel) (particleDensity connectionDensity : ℚ) : OrganicModel × ℕ :=
  if 1/10 < |om.particleDensity - particleDensity| ∨
      1/10 < |om.connectionDensity - connectionDensity| then
    densityFire sq noise rand idx om particleDensity connectionDensity
  else (om, idx)

/-- One inner-loop body of the pairwise repulsion pass: bounce
particles `i` and `j` apart when their distance is below
`0.8 * (sizeA + sizeB)`. -/
def repulsePair (sq : ℚ → ℚ) (i j : ℕ) (ps : List Particle) : List Particle :=
  let particleA := ps.getD i default
  let particleB := ps.getD j default
  let distance := vdist sq particleA.position particleB.position
  if distance < (particleA.size + particleB.size) * (4/5) then
    let direction := vnormalize sq (vsub particleB.position particleA.position)
    let force : ℚ := 1/2
    let ps1 := ps.set i { particleA with
      velocity := vsub particleA.velocity (vscale force direction) }
    let particleB1 := ps1.getD j default
    ps1.set j { particleB1 with
      velocity := vadd particleB1.velocity (vscale force direction) }
  else ps

/-- The particle-particle collision double loop (`j` from `i+1`). -/
def repulsionPass (sq : ℚ → ℚ) (ps : List Particle) : List Particle :=
  (List.range ps.length).foldl
    (fun acc i =>
      (List.range ps.length).foldl
        (fun acc2 j => if i < j then repulsePair sq i j acc2 else acc2) acc)
    ps

/-- The force-accumulation half of the per-particle physics body:
turbulence, central gravity, vortex, elasticity and the probabilistic
impulse.  Returns the accumulated velocity and the next stream
index. -/
def particleForces (sq : ℚ → ℚ) (rand : ℕ → ℚ) (prm : MappedParams)
    (fp : ForceParams) (p : Particle) (idx : ℕ) : Vec3 × ℕ :=
  let t := prm.turbulenceValue
  let rdm := prm.randomness
  -- turbulence with extra vertical weight
  let vel1 := vadd p.velocity
    ⟨randIn rand idx (-t - rdm) (t + rdm),
     randIn rand (idx+1) (-t - rdm * (3/2)) (t + rdm * (3/2)),
     randIn rand (idx+2) (-t - rdm) (t + rdm)⟩
  -- gravity toward the origin
  let gravityForce := vscale (prm.gravity + fp.gravityStrength)
    (vnormalize sq (vsub ⟨0, 0, 0⟩ p.position))
  let vel2 := vadd vel1 gravityForce
  -- vortex around the y-axis
  let vel3 :=
    if 0 < fp.vortexStrength then
      vadd vel2 (vscale fp.vortexStrength
        (vnormalize sq ⟨-p.position.z, 0, p.position.x⟩))
    else vel2
  -- elastic restoring force
  let vel4 := vadd vel3 (vscale (1/100) (vsub p.originalPosition p.position))
  -- probabilistic random impulse
  if rand (idx+3) < rdm * (3/10) then
    let impulseStrength := pmap rdm 0 (1/5) (1/2) 3
    let randomDirection := vnormalize sq
      ⟨randIn rand (idx+4) (-1) 1, randIn rand (idx+5) (-1) 1,
       randIn rand (idx+6) (-1) 1⟩
    (vadd vel4 (vscale impulseStrength randomDirection), idx + 7)
  else (vel4, idx + 4)

/-- Box-wall handling: bounce off the X/Z walls at `±terrainSize/2`
and the ceiling at `6×terrainHeight`, inverting and attenuating the
violating velocity component by `-0.8`. -/
def wallBounce (terrainSize terrainHeight : ℚ) (pos vel : Vec3) : Vec3 × Vec3 :=
  let halfSize := terrainSize / 2
  let maxHeight := terrainHeight * 6
  let bx :=
    if halfSize < pos.x then (halfSize, vel.x * (-(4/5)))
    else if pos.x < -halfSize then (-halfSize, vel.x * (-(4/5)))
    else (pos.x, vel.x)
  let bz :=
    if halfSize < pos.z then (halfSize, vel.z * (-(4/5)))
    else if pos.z < -halfSize then (-halfSize, vel.z * (-(4/5)))
    else (pos.z, vel.z)
  let byc :=
    if maxHeight < pos.y then (maxHeight, vel.y * (-(4/5)))
    else (pos.y, vel.y)
  (⟨bx.1, byc.1, bz.1⟩, ⟨bx.2, byc.2, bz.2⟩)

/-- Bézier parameter advance, endpoint reversal, clamping, and the
occasional (`Math.random() < 0.05`) drift toward the particle's cubic
Bézier path.  Consumes exactly one stream value. -/
def bezierPhase (rand : ℕ → ℚ) (prm : MappedParams) (p : Particle) (idx : ℕ) :
    Particle × ℕ :=
  let bt1 := p.bezierT + (1/500) * prm.speed * p.bezierDirection
  let dir1 := if 1 < bt1 ∨ bt1 < 0 then -p.bezierDirection else p.bezierDirection
  let bt2 := constrain bt1 0 1
  if rand idx < 1/20 then
    let c0 := p.controlPoints.getD 0 default
    let c1 := p.controlPoints.getD 1 default
    let c2 := p.controlPoints.getD 2 default
    let c3 := p.controlPoints.getD 3 default
    let bxp := bezierPoint c0.x c1.x c2.x c3.x bt2
    let byp := bezierPoint c0.y c1.y c2.y c3.y bt2
    let bzp := bezierPoint c0.z c1.z c2.z c3.z bt2
    ({ p with
       bezierT := bt2
       bezierDirection := dir1
       position := ⟨lerp p.position.x bxp (3/100), lerp p.position.y byp (3/100),
                    lerp p.position.z bzp (3/100)⟩ }, idx + 1)
  else ({ p with bezierT := bt2, bezierDirection := dir1 }, idx + 1)

/-- The final coherent-noise positional drift of the particle loop. -/
def noiseDrift (noise : ℚ → ℚ → ℚ) (frameCount : ℕ) (prm : MappedParams)
    (p : Particle) : Particle :=
  let noiseTime := (frameCount : ℚ) * (1/100)
  let drift : Vec3 :=
    ⟨noise p.noiseOffset noiseTime - 1/2,
     noise (p.noiseOffset + 100) noiseTime - 1/2,
     noise (p.noiseOffset + 200) noiseTime - 1/2⟩
  let noiseStrength := pmap prm.randomness 0 (1/5) (1/10) (1/2)
  { p with position := vadd p.position (vscale noiseStrength drift) }

/-- The per-particle physics body of `updateOrganicModel`'s main loop,
composing forces, damping + integration, box walls, terrain bounce,
size scaling, Bézier drift and coherent-noise drift.  Threads the
random-stream index. -/
def updateParticleStep (sq : ℚ → ℚ) (noise : ℚ → ℚ → ℚ) (rand : ℕ → ℚ)
    (frameCount : ℕ) (prm : MappedParams) (fp : ForceParams) (om : OrganicModel)
    (p : Particle) (idx : ℕ) : Particle × ℕ :=
  let fr := particleForces sq rand prm fp p idx
  -- damping and integration
  let vel6 := vscale (49/50) fr.1
  let pos1 := vadd p.position (vscale prm.speed vel6)
  let wb := wallBounce om.terrainSize om.terrainHeight pos1 vel6
  let p2 := { p with position := wb.1, velocity := wb.2 }
  -- terrain collision and bounce
  let p3 := applyTerrainBounce sq frameCount prm.speed om.terrainHeight
    om.terrain om.terrainResolution om.terrainSize p2
  -- fixed size scaled by the global size parameter
  let p4 := { p3 with size := p3.fixedSize * prm.size }
  let p5 := bezierPhase rand prm p4 fr.2
  (noiseDrift noise frameCount prm p5.1, p5.2)

/-- The main particle loop, in list order. -/
def physicsList (sq : ℚ → ℚ) (noise : ℚ → ℚ → ℚ) (rand : ℕ → ℚ) (frameCount : ℕ)
    (prm : MappedParams) (fp : ForceParams) (om : OrganicModel) :
    List Particle → ℕ → List Particle × ℕ
  | [], idx => ([], idx)
  | p :: rest, idx =>
    let r := updateParticleStep sq noise rand frameCount prm fp om p idx
    let tail := physicsList sq noise rand frameCount prm fp om rest r.2
    (r.1 :: tail.1, tail.2)

/-- One connection-constraint application: pull the endpoints together
when the connection is stretched past its `maxLength`. -/
def applyConstraint (sq : ℚ → ℚ) (ps : List Particle) (c : Connection) : List Particle :=
  if c.fromIndex < ps.length ∧ c.toIndex < ps.length then
    let particleA := ps.getD c.fromIndex default
    let particleB := ps.getD c.toIndex default
    let direction := vsub particleB.position particleA.position
    let distance := vmag sq direction
    if c.maxLength < distance then
      let dirN := vnormalize sq direction
      let correction := vscale ((distance - c.maxLength) * c.strength) dirN
      let ps1 := ps.set c.fromIndex { particleA with
        position := vadd particleA.position correction }
      let particleB1 := ps1.getD c.toIndex default
      ps1.set c.toIndex { particleB1 with
        position := vsub particleB1.position correction }
    else ps
  else ps

/-- The connection-constraint loop. -/
def constraintsPhase (sq : ℚ → ℚ) (conns : List Connection) (ps : List Particle) :
    List Particle :=
  conns.foldl (applyConstraint sq) ps

/-- Flush the add queue and rebuild the connection graph. -/
def addPhase (sq : ℚ → ℚ) (rand : ℕ → ℚ) (idx : ℕ) (om : OrganicModel) :
    OrganicModel × ℕ :=
  if 0 < om.particlesToAdd.length then
    let ps := om.particles ++ om.particlesToAdd
    let conns :=
      if 0 < om.connectionDensity then createConnections sq rand idx om.connectionDensity ps
      else ([], idx)
    ({ om with particles := ps, particlesToAdd := [], connections := conns.1 }, conns.2)
  else (om, idx)

/-- Sort descending, drop duplicates (keeping the first occurrence, as
`[...new Set(...)]` does), as the removal queue preprocessing. -/
def dedupKeepFirst (l : List ℤ) : List ℤ :=
  l.foldl (fun acc a => if a ∈ acc then acc else acc ++ [a]) []

/-- Flush the removal queue (descending order, range-checked splice)
and rebuild the connection graph. -/
def removePhase (sq : ℚ → ℚ) (rand : ℕ → ℚ) (idx : ℕ) (om : OrganicModel) :
    OrganicModel × ℕ :=
  if 0 < om.particlesToRemove.length then
    let sorted := om.particlesToRemove.mergeSort (fun a b => b ≤ a)
    let indices := dedupKeepFirst sorted
    let ps := indices.foldl
      (fun acc i =>
        if 0 ≤ i ∧ i < (acc.length : ℤ) then acc.eraseIdx i.toNat else acc)
      om.particles
    let conns :=
      if 0 < om.connectionDensity then createConnections sq rand idx om.connectionDensity ps
      else ([], idx)
    ({ om with particles := ps, particlesToRemove := [], connections := conns.1 }, conns.2)
  else (om, idx)

/-- Synchronous end-of-tick top-up: respawn up to `minParticles` and
rebuild the connection graph. -/
def topUpPhase (sq : ℚ → ℚ) (noise : ℚ → ℚ → ℚ) (rand : ℕ → ℚ) (idx : ℕ)
    (om : OrganicModel) : OrganicModel × ℕ :=
  if om.particles.length < om.minParticles then
    let spawned := spawnList noise rand om.terrainSize om.terrainHeight
      (om.minParticles - om.particles.length) idx
    let ps := om.particles ++ spawned.1
    let conns :=
      if 0 < om.connectionDensity then
        createConnections sq rand spawned.2 om.connectionDensity ps
      else ([], spawned.2)
    ({ om with particles := ps, connections := conns.1 }, conns.2)
  else (om, idx)

/-- Wrap the pairwise repulsion pass as a model update. -/
def repulsionPhase (sq : ℚ → ℚ) (om : OrganicModel) : OrganicModel :=
  { om with particles := repulsionPass sq om.particles }

/-- Wrap the main particle loop as a model update. -/
def physicsPhase (sq : ℚ → ℚ) (noise : ℚ → ℚ → ℚ) (rand : ℕ → ℚ) (frameCount : ℕ)
    (prm : MappedParams) (fp : ForceParams) (om : OrganicModel) (idx : ℕ) :
    OrganicModel × ℕ :=
  let r := physicsList sq noise rand frameCount prm fp om om.particles idx
  ({ om with particles := r.1 }, r.2)

/-- Wrap the connection-constraint loop as a model update. -/
def constraintsStep (sq : ℚ → ℚ) (om : OrganicModel) : OrganicModel :=
  { om with particles := constraintsPhase sq om.connections om.particles }

/-! ## The full tick -/

/-- The whole mutable state read and written by one tick. -/
structure SimState where
  running : Bool
  midi : MidiParams
  camera : CameraRot
  forces : ForceParams
  organic : OrganicModel
  randIdx : ℕ

/-- One call of `updateOrganicModel` (a no-op unless
`simulationState === 'running'`). -/
def updateOrganicModel (sq : ℚ → ℚ) (noise : ℚ → ℚ → ℚ) (rand : ℕ → ℚ)
    (frameCount : ℕ) (st : SimState) : SimState :=
  if st.running = true then
    let sv := smoothGestureValues st.midi
    let prm := mapParams sv
    let om1 := terrainPhase noise st.organic prm.terrainHeight
    let d := densityPhase sq noise rand st.randIdx om1 prm.particleDensity prm.connectionDensity
    let om3 := repulsionPhase sq d.1
    let ph := physicsPhase sq noise rand frameCount prm (forcesPhase sv) om3 d.2
    let om5 := constraintsStep sq ph.1
    let a := addPhase sq rand ph.2 om5
    let r := removePhase sq rand a.2 a.1
    let u := topUpPhase sq noise rand r.2 r.1
    { st with
      midi := { st.midi with smoothedValues := sv }
      camera := cameraPhase sv st.camera
      forces := forcesPhase sv
      organic := u.1
      randIdx := u.2 }
  else st

/-! # Claim theorems -/

/-! ## C2: parameter-mapper ranges -/

theorem pmap01_bounds {v a b : ℚ} (h0 : 0 ≤ v) (h1 : v ≤ 1) (hab : a ≤ b) :
    a ≤ pmap v 0 1 a b ∧ pmap v 0 1 a b ≤ b := by
  unfold pmap
  constructor <;> nlinarith

/-- C2: for every vector of 14 smoothed control values in `[0,1]`, the
per-tick parameter mapping keeps every output inside its documented
target range: size ∈ [0.5,2], speed ∈ [0.1,2], gravity ∈ [0.01,0.2],
turbulence ∈ [0.01,0.3], randomness ∈ [0.01,0.2], particleDensity ∈
[0.2,1], connectionDensity ∈ [0,1], terrainHeight ∈ [20,200]. -/
theorem mapParams_in_range (sv : Fin 14 → ℚ) (h : ∀ i, 0 ≤ sv i ∧ sv i ≤ 1) :
    (1/2 ≤ (mapParams sv).size ∧ (mapParams sv).size ≤ 2) ∧
    (1/10 ≤ (mapParams sv).speed ∧ (mapParams sv).speed ≤ 2) ∧
    (1/100 ≤ (mapParams sv).gravity ∧ (mapParams sv).gravity ≤ 1/5) ∧
    (1/100 ≤ (mapParams sv).turbulenceValue ∧ (mapParams sv).turbulenceValue ≤ 3/10) ∧
    (1/100 ≤ (mapParams sv).randomness ∧ (mapParams sv).randomness ≤ 1/5) ∧
    (1/5 ≤ (mapParams sv).particleDensity ∧ (mapParams sv).particleDensity ≤ 1) ∧
    (0 ≤ (mapParams sv).connectionDensity ∧ (mapParams sv).connectionDensity ≤ 1) ∧
    (20 ≤ (mapParams sv).terrainHeight ∧ (mapParams sv).terrainHeight ≤ 200) := by
  refine ⟨?_, ?_, ?_, ?_, ?_, ?_, ?_, ?_⟩ <;>
    exact pmap01_bounds (h _).1 (h _).2 (by norm_num)

/-- Witness for C2 at the all-0.5 control vector. -/
theorem mapParams_in_range_witness :
    (∀ i : Fin 14, 0 ≤ ((fun _ => (1:ℚ)/2) : Fin 14 → ℚ) i ∧
      ((fun _ => (1:ℚ)/2) : Fin 14 → ℚ) i ≤ 1) ∧
    (1/2 ≤ (mapParams (fun _ => (1:ℚ)/2)).size ∧
      (mapParams (fun _ => (1:ℚ)/2)).size ≤ 2) :=
  ⟨of_decide_eq_true (by with_unfolding_all rfl),
   (mapParams_in_range (fun _ => (1:ℚ)/2)
     (of_decide_eq_true (by with_unfolding_all rfl))).1⟩

/-! ## C8: terrain hysteresis -/

/-- C8: when the mapped terrain-height parameter is within 5 units of
the baked value, tick leaves both the baked height and the whole grid
unchanged; when the drift exceeds 5 units, the height is rebaked and
the grid is regenerated wholesale by `generateTerrain`. -/
theorem terrainPhase_hysteresis (noise : ℚ → ℚ → ℚ) (om : OrganicModel) (mapped : ℚ) :
    (|om.terrainHeight - mapped| ≤ 5 → terrainPhase noise om mapped = om) ∧
    (5 < |om.terrainHeight - mapped| →
      (terrainPhase noise om mapped).terrainHeight = mapped ∧
      (terrainPhase noise om mapped).terrain =
        generateTerrain noise om.terrainResolution om.terrainSize mapped) := by
  constructor
  · intro h
    unfold terrainPhase
    rw [if_neg (by exact not_lt.mpr h)]
  · intro h
    unfold terrainPhase
    rw [if_pos h]
    exact ⟨rfl, rfl⟩

/-- Concrete model state used in several witnesses. -/
def omSmall : OrganicModel :=
  { particles := []
    numParticles := 150
    connections := []
    terrain := []
    terrainResolution := 2
    terrainSize := 500
    terrainHeight := 100
    particleDensity := 1/2
    connectionDensity := 1/2
    particlesToAdd := []
    particlesToRemove := []
    minParticles := 10 }

/-- Witness for C8: a 4-unit drift is skipped, an 10-unit drift rebakes. -/
theorem terrainPhase_hysteresis_witness :
    terrainPhase (fun _ _ => (1:ℚ)/2) omSmall 104 = omSmall ∧
    (terrainPhase (fun _ _ => (1:ℚ)/2) omSmall 110).terrainHeight = 110 :=
  ⟨(terrainPhase_hysteresis (fun _ _ => (1:ℚ)/2) omSmall 104).1 (by norm_num [omSmall]),
   ((terrainPhase_hysteresis (fun _ _ => (1:ℚ)/2) omSmall 110).2 (by norm_num [omSmall])).1⟩

/-! ## C10: out-of-grid collision queries -/

/-- C10: whenever the particle's grid coordinates fall outside the
interior `[0, resolution-2] × [0, resolution-2]` of the terrain grid,
`checkTerrainCollision` reports no collision with the upward default
normal rather than an error, for every input position. -/
theorem checkTerrainCollision_out_of_grid (sq : ℚ → ℚ) (terrain : Terrain)
    (resolution : ℕ) (size : ℚ) (p : Particle)
    (h : ¬ (0 ≤ gridCoord size resolution p.position.x ∧
        gridCoord size resolution p.position.x < (resolution : ℤ) - 1 ∧
        0 ≤ gridCoord size resolution p.position.z ∧
        gridCoord size resolution p.position.z < (resolution : ℤ) - 1)) :
    checkTerrainCollision sq terrain resolution size p = noCollisionResult ∧
    (checkTerrainCollision sq terrain resolution size p).collision = false ∧
    (checkTerrainCollision sq terrain resolution size p).normal = ⟨0, 1, 0⟩ := by
  unfold checkTerrainCollision
  rw [if_neg h]
  exact ⟨rfl, rfl, rfl⟩

/-- A particle sitting exactly on the `+X` wall (`x = terrainSize/2`):
its grid column is `resolution-1`, outside the interior. -/
def wallParticle : Particle :=
  { position := ⟨250, 0, 0⟩
    velocity := ⟨0, 0, 0⟩
    size := 8
    fixedSize := 8
    originalPosition := ⟨250, 0, 0⟩
    controlPoints := []
    bezierT := 0
    bezierDirection := 1
    noiseOffset := 0
    terrainHits := 0
    lastCollisionTime := 0 }

/-- Witness for C10 at a particle on the wall of a 30×30 grid. -/
theorem checkTerrainCollision_out_of_grid_witness :
    (checkTerrainCollision (fun _ => 0) [] 30 500 wallParticle).collision = false ∧
    (checkTerrainCollision (fun _ => 0) [] 30 500 wallParticle).normal = ⟨0, 1, 0⟩ :=
  ⟨(checkTerrainCollision_out_of_grid (fun _ => 0) [] 30 500 wallParticle
      (of_decide_eq_true (by with_unfolding_all rfl))).2.1,
   (checkTerrainCollision_out_of_grid (fun _ => 0) [] 30 500 wallParticle
      (of_decide_eq_true (by with_unfolding_all rfl))).2.2⟩

/-! ## C6: gesture smoothing convergence -/

theorem smoothStep_sub (f r s : ℚ) :
    smoothStep f r s - r = (s - r) * (1 - f * (1 + r * 2)) := by
  unfold smoothStep; ring

theorem smoothStep_le_of_le {r s : ℚ} (hr0 : 0 ≤ r) (hr1 : r ≤ 1) (h : s ≤ r) :
    s ≤ smoothStep (3/20) r s ∧ smoothStep (3/20) r s ≤ r := by
  unfold smoothStep
  constructor <;> nlinarith

theorem smoothStep_ge_of_ge {r s : ℚ} (hr0 : 0 ≤ r) (hr1 : r ≤ 1) (h : r ≤ s) :
    smoothStep (3/20) r s ≤ s ∧ r ≤ smoothStep (3/20) r s := by
  unfold smoothStep
  constructor <;> nlinarith

theorem smoothStep_abs_contract {r s : ℚ} (hr0 : 0 ≤ r) (hr1 : r ≤ 1) :
    |smoothStep (3/20) r s - r| ≤ 17/20 * |s - r| := by
  rw [smoothStep_sub, abs_mul]
  have h1 : |1 - 3/20 * (1 + r * 2)| ≤ 17/20 := by
    rw [abs_le]; constructor <;> nlinarith
  calc |s - r| * |1 - 3/20 * (1 + r * 2)| ≤ |s - r| * (17/20) := by
        exact mul_le_mul_of_nonneg_left h1 (abs_nonneg _)
    _ = 17/20 * |s - r| := by ring

/-- C6: for a gesture channel (indices 8–13) held at a constant raw
value `r ∈ [0,1]`, the adaptive smoothing update converges the
smoothed value to `r` monotonically and never overshoots (every
iterate stays on the initial side of `r`, and the distance to `r`
decays at least geometrically with ratio 17/20); discrete channels
0–7 pass through unchanged. -/
theorem gestureSmoothing_converges (r s₀ : ℚ) (hr0 : 0 ≤ r) (hr1 : r ≤ 1) :
    (∀ (mp : MidiParams) (i : Fin 14), (i : ℕ) < 8 →
      smoothGestureValues mp i = mp.faderValues i) ∧
    (∀ (mp : MidiParams) (i : Fin 14), 8 ≤ (i : ℕ) →
      smoothGestureValues mp i =
        smoothStep mp.smoothingFactor (mp.faderValues i) (mp.smoothedValues i)) ∧
    (s₀ ≤ r → ∀ n, smoothIter r s₀ n ≤ smoothIter r s₀ (n+1) ∧ smoothIter r s₀ n ≤ r) ∧
    (r ≤ s₀ → ∀ n, smoothIter r s₀ (n+1) ≤ smoothIter r s₀ n ∧ r ≤ smoothIter r s₀ n) ∧
    (∀ n, |smoothIter r s₀ n - r| ≤ (17/20)^n * |s₀ - r|) := by
  refine ⟨?_, ?_, ?_, ?_, ?_⟩
  · intro mp i h
    unfold smoothGestureValues
    rw [if_neg (Nat.not_le.mpr h)]
  · intro mp i h
    unfold smoothGestureValues
    rw [if_pos h]
  · intro hs n
    induction n with
    | zero =>
      exact ⟨(smoothStep_le_of_le hr0 hr1 hs).1, hs⟩
    | succ n ih =>
      have h2 : smoothIter r s₀ (n+1) ≤ r := (smoothStep_le_of_le hr0 hr1 ih.2).2
      exact ⟨(smoothStep_le_of_le hr0 hr1 h2).1, h2⟩
  · intro hs n
    induction n with
    | zero =>
      exact ⟨(smoothStep_ge_of_ge hr0 hr1 hs).1, hs⟩
    | succ n ih =>
      have h2 : r ≤ smoothIter r s₀ (n+1) := (smoothStep_ge_of_ge hr0 hr1 ih.2).2
      exact ⟨(smoothStep_ge_of_ge hr0 hr1 h2).1, h2⟩
  · intro n
    induction n with
    | zero => simp [smoothIter]
    | succ n ih =>
      calc |smoothIter r s₀ (n+1) - r| ≤ 17/20 * |smoothIter r s₀ n - r| :=
            smoothStep_abs_contract hr0 hr1
        _ ≤ 17/20 * ((17/20)^n * |s₀ - r|) := by
            exact mul_le_mul_of_nonneg_left ih (by norm_num)
        _ = (17/20)^(n+1) * |s₀ - r| := by ring

/-- Witness for C6 at `r = 1/2`, `s₀ = 0`. -/
theorem gestureSmoothing_converges_witness :
    smoothIter (1/2) 0 0 ≤ smoothIter (1/2) 0 1 ∧
    |smoothIter (1/2) 0 2 - 1/2| ≤ (17/20)^2 * |(0:ℚ) - 1/2| :=
  ⟨((gestureSmoothing_converges (1/2) 0 (by norm_num) (by norm_num)).2.2.1
      (by norm_num) 0).1,
   (gestureSmoothing_converges (1/2) 0 (by norm_num) (by norm_num)).2.2.2.2 2⟩

/-! ## C9: discrete yaw detent -/

theorem jsMod_two_floor {a : ℚ} (h0 : 0 ≤ a) :
    jsMod a 2 = a - 2 * (⌊a / 2⌋ : ℚ) := by
  unfold jsMod ratTrunc
  rw [if_pos (by positivity)]

theorem jsMod_two_lo {a : ℚ} (h0 : 0 ≤ a) (h2 : a < 2) : jsMod a 2 = a := by
  rw [jsMod_two_floor h0]
  have : ⌊a / 2⌋ = 0 := by
    rw [Int.floor_eq_zero_iff]
    constructor <;> [positivity; linarith]
  rw [this]
  norm_num

theorem jsMod_two_mid {a : ℚ} (h0 : 2 ≤ a) (h2 : a < 4) : jsMod a 2 = a - 2 := by
  rw [jsMod_two_floor (by linarith)]
  have h : ⌊a / 2⌋ = 1 := by
    rw [Int.floor_eq_iff]
    constructor <;> [(push_cast; linarith); (push_cast; linarith)]
  rw [h]
  norm_num

theorem jsMod_two_hi {a : ℚ} (h0 : 4 ≤ a) (h2 : a < 6) : jsMod a 2 = a - 4 := by
  rw [jsMod_two_floor (by linarith)]
  have h : ⌊a / 2⌋ = 2 := by
    rw [Int.floor_eq_iff]
    constructor <;> [(push_cast; linarith); (push_cast; linarith)]
  rw [h]
  norm_num

/-- C9: the rotate gesture pair changes the yaw only when
`|rotateRight - rotateLeft| > 0.5`; then the yaw moves by exactly one
`π/12` (15°) increment in the direction of the sign of the difference
and is normalised into `[0, 2π)`; inside the deadzone the yaw is left
unchanged.  (Angles in π-units: the increment is `1/12`, the range is
`[0, 2)`.) -/
theorem yawDetent (rR rL y : ℚ) (hy0 : 0 ≤ y) (hy2 : y < 2) :
    (∀ (sv : Fin 14 → ℚ) (cam : CameraRot),
      (cameraPhase sv cam).yRotation = updateYRotation (sv 12) (sv 13) cam.yRotation) ∧
    (|rR - rL| ≤ 1/2 → updateYRotation rR rL y = y) ∧
    (1/2 < rR - rL →
      updateYRotation rR rL y = (if y + 1/12 < 2 then y + 1/12 else y + 1/12 - 2) ∧
      0 ≤ updateYRotation rR rL y ∧ updateYRotation rR rL y < 2) ∧
    (rR - rL < -(1/2) →
      updateYRotation rR rL y = (if 0 ≤ y - 1/12 then y - 1/12 else y - 1/12 + 2) ∧
      0 ≤ updateYRotation rR rL y ∧ updateYRotation rR rL y < 2) := by
  refine ⟨fun sv cam => rfl, ?_, ?_, ?_⟩
  · intro h
    unfold updateYRotation
    rw [if_neg (not_lt.mpr h)]
  · intro h
    have habs : 1/2 < |rR - rL| := lt_of_lt_of_le h (le_abs_self _)
    have hpos : 0 < rR - rL := by linarith
    unfold updateYRotation
    rw [if_pos habs, if_pos hpos]
    by_cases hc : y + 1/12 < 2
    · rw [if_pos hc, jsMod_two_mid (by linarith) (by linarith)]
      refine ⟨by ring, by linarith, by linarith⟩
    · push_neg at hc
      rw [if_neg (not_lt.mpr hc), jsMod_two_hi (by linarith) (by linarith)]
      refine ⟨by ring, by linarith, by linarith⟩
  · intro h
    have habs : 1/2 < |rR - rL| := lt_of_lt_of_le (by linarith) (neg_le_abs _)
    have hneg : ¬ (0 < rR - rL) := by push_neg; linarith
    unfold updateYRotation
    rw [if_pos habs, if_neg hneg]
    by_cases hc : 0 ≤ y - 1/12
    · rw [if_pos hc, jsMod_two_mid (by linarith) (by linarith)]
      refine ⟨by ring, by linarith, by linarith⟩
    · push_neg at hc
      rw [if_neg (not_le.mpr hc), jsMod_two_lo (by linarith) (by linarith)]
      refine ⟨by ring, by linarith, by linarith⟩

/-- Witness for C9: at yaw `0`, a full-right difference steps to
`π/12` (i.e. `1/12`), and a zero difference leaves yaw unchanged. -/
theorem yawDetent_witness :
    updateYRotation 1 0 0 = 1/12 ∧ updateYRotation (1/2) (1/2) 0 = 0 :=
  ⟨by
    have h := ((yawDetent 1 0 0 (by norm_num) (by norm_num)).2.2.1 (by norm_num)).1
    rw [h]
    norm_num,
   (yawDetent (1/2) (1/2) 0 (by norm_num) (by norm_num)).2.1 (by norm_num)⟩

/-! ## C7: terrain-hit debounce -/

theorem debounceRun_succ (t0 : ℕ) (s : ℕ × ℕ) (n : ℕ) :
    debounceRun t0 s (n+1) =
      collisionDebounce (t0 + n) (debounceRun t0 s n).1 (debounceRun t0 s n).2 := rfl

theorem debounceRun_window_aux (t0 : ℕ) (s : ℕ × ℕ) (n : ℕ) :
    ∀ j, j ≤ 10 →
      (debounceRun t0 s (n + j)).1 ≤ (debounceRun t0 s n).1 + 1 ∧
      ((debounceRun t0 s (n + j)).1 ≠ (debounceRun t0 s n).1 →
        t0 + n ≤ (debounceRun t0 s (n + j)).2) := by
  intro j
  induction j with
  | zero => exact fun _ => ⟨Nat.le_succ _, fun h => absurd rfl h⟩
  | succ j ih =>
    intro hj
    have hj9 : j ≤ 9 := Nat.lt_succ_iff.mp hj
    obtain ⟨ih1, ih2⟩ := ih (Nat.le_of_succ_le hj)
    rw [show n + (j+1) = (n+j) + 1 from rfl, debounceRun_succ]
    unfold collisionDebounce
    by_cases hcond : 10 < t0 + (n + j) - (debounceRun t0 s (n+j)).2
    · rw [if_pos hcond]
      constructor
      · show (debounceRun t0 s (n+j)).1 + 1 ≤ (debounceRun t0 s n).1 + 1
        by_cases heq : (debounceRun t0 s (n+j)).1 = (debounceRun t0 s n).1
        · omega
        · have hL := ih2 heq
          omega
      · intro _
        show t0 + n ≤ t0 + (n + j)
        omega
    · rw [if_neg hcond]
      exact ⟨ih1, ih2⟩

/-- C7: a terrain hit is counted only if at least 10 ticks have
elapsed since the last counted hit on that particle, and a particle
continuously intersecting the terrain on consecutive ticks accrues at
most one hit-count increment per 10-tick window. -/
theorem hitDebounce :
    (∀ (sq : ℚ → ℚ) (fc : ℕ) (speed thP : ℚ) (terrain : Terrain) (res : ℕ)
      (size : ℚ) (p : Particle),
      (applyTerrainBounce sq fc speed thP terrain res size p).terrainHits ≠
        p.terrainHits →
      p.lastCollisionTime + 10 ≤ fc) ∧
    (∀ (t0 : ℕ) (s : ℕ × ℕ) (n : ℕ),
      (debounceRun t0 s (n + 10)).1 ≤ (debounceRun t0 s n).1 + 1) := by
  constructor
  · intro sq fc speed thP terrain res size p h
    simp only [applyTerrainBounce] at h
    by_cases hb : (checkTerrainCollision sq terrain res size p).collision = true ∨
        p.position.y < -thP
    · rw [if_pos hb] at h
      simp only [collisionDebounce] at h
      by_cases hc : 10 < fc - p.lastCollisionTime
      · omega
      · rw [if_neg hc] at h
        simp at h
    · rw [if_neg hb] at h
      exact absurd rfl h
  · intro t0 s n
    exact (debounceRun_window_aux t0 s n 10 le_rfl).1

/-- A particle below the kill plane used by the C7 witness. -/
def deepParticle : Particle :=
  { position := ⟨0, -200, 0⟩
    velocity := ⟨0, 0, 0⟩
    size := 8
    fixedSize := 8
    originalPosition := ⟨0, -200, 0⟩
    controlPoints := []
    bezierT := 0
    bezierDirection := 1
    noiseOffset := 0
    terrainHits := 0
    lastCollisionTime := 0 }

/-- Witness for C7: the bounce at frame 20 counts a hit on a particle
last hit at frame 0, and the first ten-tick window of a continuously
colliding run gains at most one hit. -/
theorem hitDebounce_witness :
    (applyTerrainBounce (fun _ => 0) 20 1 100 [] 0 500 deepParticle).terrainHits ≠
      deepParticle.terrainHits ∧
    deepParticle.lastCollisionTime + 10 ≤ 20 ∧
    (debounceRun 0 (0, 0) 10).1 ≤ (debounceRun 0 (0, 0) 0).1 + 1 :=
  ⟨of_decide_eq_true (by with_unfolding_all rfl),
   hitDebounce.1 (fun _ => 0) 20 1 100 [] 0 500 deepParticle
     (of_decide_eq_true (by with_unfolding_all rfl)),
   hitDebounce.2 0 (0, 0) 0⟩

/-! ## C3: terrain-collision resolution -/

theorem vdot_vadd_left (u v w : Vec3) : vdot (vadd u v) w = vdot u w + vdot v w := by
  unfold vdot vadd; ring

theorem vdot_vsub_left (u v w : Vec3) : vdot (vsub u v) w = vdot u w - vdot v w := by
  unfold vdot vsub; ring

theorem vdot_vscale_left (a : ℚ) (u w : Vec3) : vdot (vscale a u) w = a * vdot u w := by
  unfold vdot vscale; ring

theorem vdot_self_eq_norm2 (v : Vec3) : vdot v v = norm2 v := by
  unfold vdot norm2; ring

theorem vdot_vscale_vscale (a b : ℚ) (u v : Vec3) :
    vdot (vscale a u) (vscale b v) = a * b * vdot u v := by
  unfold vdot vscale; ring

/-- When the abstract square root is exact and positive on the cell's
cross product, the oriented cell normal is a unit vector. -/
theorem cellNormal_unit (sq : ℚ → ℚ) (terrain : Terrain) (gx gz : ℕ)
    (h1 : 0 < sq (norm2 (cellCross terrain gx gz)))
    (h2 : sq (norm2 (cellCross terrain gx gz)) * sq (norm2 (cellCross terrain gx gz)) =
      norm2 (cellCross terrain gx gz)) :
    vdot (cellNormal sq terrain gx gz) (cellNormal sq terrain gx gz) = 1 := by
  have hm : sq (norm2 (cellCross terrain gx gz)) ≠ 0 := ne_of_gt h1
  have hsc : ∀ a : ℚ,
      vdot (vscale a (cellCross terrain gx gz)) (vscale a (cellCross terrain gx gz)) =
        a * a * norm2 (cellCross terrain gx gz) := by
    intro a
    rw [vdot_vscale_vscale, vdot_self_eq_norm2]
  unfold cellNormal vnormalize vmag
  rw [if_neg hm]
  by_cases hflip : (vscale (1 / sq (norm2 (cellCross terrain gx gz)))
      (cellCross terrain gx gz)).y < 0
  · rw [if_pos hflip]
    unfold vscale vdot
    simp only
    field_simp
    unfold norm2 at h2 ⊢
    nlinarith [h2]
  · rw [if_neg hflip]
    unfold vscale vdot
    simp only
    field_simp
    unfold norm2 at h2 ⊢
    nlinarith [h2]

/-- `checkTerrainCollision` in the interior, penetrating case. -/
theorem checkTerrainCollision_hit (sq : ℚ → ℚ) (terrain : Terrain) (resolution : ℕ)
    (size : ℚ) (p : Particle)
    (hb : 0 ≤ gridCoord size resolution p.position.x ∧
        gridCoord size resolution p.position.x < (resolution : ℤ) - 1 ∧
        0 ≤ gridCoord size resolution p.position.z ∧
        gridCoord size resolution p.position.z < (resolution : ℤ) - 1)
    (hpen : 0 < bilinearHeight terrain (gridCoord size resolution p.position.x).toNat
        (gridCoord size resolution p.position.z).toNat p.position.x p.position.z +
        p.size * (1/2) - p.position.y) :
    checkTerrainCollision sq terrain resolution size p =
      { collision := true
        normal := cellNormal sq terrain (gridCoord size resolution p.position.x).toNat
          (gridCoord size resolution p.position.z).toNat
        terrainHeight := some (bilinearHeight terrain
          (gridCoord size resolution p.position.x).toNat
          (gridCoord size resolution p.position.z).toNat p.position.x p.position.z)
        penetrationDepth := bilinearHeight terrain
          (gridCoord size resolution p.position.x).toNat
          (gridCoord size resolution p.position.z).toNat p.position.x p.position.z +
          p.size * (1/2) - p.position.y
        velocityMagnitude := vmag sq p.velocity } := by
  unfold checkTerrainCollision
  rw [if_pos hb, if_pos (by linarith)]

/-- C3 (amended): for a particle over the interior of the grid starting
the tick at `y = terrainHeightAtXZ - 100`, one collision-resolution
pass repositions it to `y = terrainHeightAtXZ + size*0.8`; and
provided the incoming velocity does not already point away from the
surface (`velocity·normal ≤ 0`), the post-bounce velocity satisfies
`velocity·normal ≥ 0` with respect to the upward-oriented surface
normal.  (The hypotheses `h1`/`h2` state that the abstracted square
root is exact on the cell's cross product.) -/
theorem terrainBounce_resolution (sq : ℚ → ℚ) (terrain : Terrain) (resolution : ℕ)
    (size speed thP : ℚ) (fc : ℕ) (p : Particle)
    (hb : 0 ≤ gridCoord size resolution p.position.x ∧
        gridCoord size resolution p.position.x < (resolution : ℤ) - 1 ∧
        0 ≤ gridCoord size resolution p.position.z ∧
        gridCoord size resolution p.position.z < (resolution : ℤ) - 1)
    (hy : p.position.y = bilinearHeight terrain
        (gridCoord size resolution p.position.x).toNat
        (gridCoord size resolution p.position.z).toNat
        p.position.x p.position.z - 100)
    (hsize : 0 < p.size) (hspeed : 0 < speed)
    (h1 : 0 < sq (norm2 (cellCross terrain (gridCoord size resolution p.position.x).toNat
        (gridCoord size resolution p.position.z).toNat)))
    (h2 : sq (norm2 (cellCross terrain (gridCoord size resolution p.position.x).toNat
          (gridCoord size resolution p.position.z).toNat)) *
        sq (norm2 (cellCross terrain (gridCoord size resolution p.position.x).toNat
          (gridCoord size resolution p.position.z).toNat)) =
        norm2 (cellCross terrain (gridCoord size resolution p.position.x).toNat
          (gridCoord size resolution p.position.z).toNat))
    (hv : vdot p.velocity (cellNormal sq terrain
        (gridCoord size resolution p.position.x).toNat
        (gridCoord size resolution p.position.z).toNat) ≤ 0) :
    (applyTerrainBounce sq fc speed thP terrain resolution size p).position.y =
      bilinearHeight terrain (gridCoord size resolution p.position.x).toNat
        (gridCoord size resolution p.position.z).toNat
        p.position.x p.position.z + p.size * (4/5) ∧
    0 ≤ vdot (applyTerrainBounce sq fc speed thP terrain resolution size p).velocity
      (cellNormal sq terrain (gridCoord size resolution p.position.x).toNat
        (gridCoord size resolution p.position.z).toNat) := by
  have hpen : 0 < bilinearHeight terrain
      (gridCoord size resolution p.position.x).toNat
      (gridCoord size resolution p.position.z).toNat
      p.position.x p.position.z + p.size * (1/2) - p.position.y := by
    rw [hy]; linarith
  have htc := checkTerrainCollision_hit sq terrain resolution size p hb hpen
  have hres : applyTerrainBounce sq fc speed thP terrain resolution size p =
      { p with
        position := ⟨p.position.x,
          bilinearHeight terrain (gridCoord size resolution p.position.x).toNat
            (gridCoord size resolution p.position.z).toNat
            p.position.x p.position.z + p.size * (4/5), p.position.z⟩
        velocity := vadd (vscale (7/10) (vsub p.velocity
            (vscale (2 * vdot p.velocity (cellNormal sq terrain
               (gridCoord size resolution p.position.x).toNat
               (gridCoord size resolution p.position.z).toNat))
              (cellNormal sq terrain
               (gridCoord size resolution p.position.x).toNat
               (gridCoord size resolution p.position.z).toNat))))
          (vscale ((1/2) * speed) (cellNormal sq terrain
            (gridCoord size resolution p.position.x).toNat
            (gridCoord size resolution p.position.z).toNat))
        terrainHits := (collisionDebounce fc p.terrainHits p.lastCollisionTime).1
        lastCollisionTime := (collisionDebounce fc p.terrainHits p.lastCollisionTime).2 } := by
    unfold applyTerrainBounce
    rw [htc]
    rfl
  constructor
  · rw [hres]
  · rw [hres]
    simp only
    rw [vdot_vadd_left, vdot_vscale_left, vdot_vscale_left, vdot_vsub_left,
      vdot_vscale_left, cellNormal_unit sq terrain _ _ h1 h2]
    nlinarith [hv, hspeed]

/-- A flat 2×2 terrain grid at height 0 over a `[-1,1]²` footprint
(cell positions laid out as `generateTerrain` would for
`terrainSize = 2`). -/
def flatTerrain : Terrain :=
  [[⟨⟨-1, 0, -1⟩, .lowGround⟩, ⟨⟨-1, 0, 1⟩, .lowGround⟩],
   [⟨⟨1, 0, -1⟩, .lowGround⟩, ⟨⟨1, 0, 1⟩, .lowGround⟩]]

/-- Exact square root at the two values queried on `flatTerrain`:
`‖cross‖² = 16` and `‖(0,±10,0)‖² = 100`. -/
def sqFlat : ℚ → ℚ :=
  fun q => if q = 16 then 4 else if q = 100 then 10 else 0

/-- A particle over the cell interior, 100 units below the surface,
moving straight up (away from the surface). -/
def upParticle : Particle :=
  { position := ⟨0, -100, 0⟩
    velocity := ⟨0, 10, 0⟩
    size := 10
    fixedSize := 10
    originalPosition := ⟨0, -100, 0⟩
    controlPoints := []
    bezierT := 0
    bezierDirection := 1
    noiseOffset := 0
    terrainHits := 0
    lastCollisionTime := 0 }

set_option maxRecDepth 40000 in
/-- Counterexample to C3 as stated: `upParticle` satisfies every
premise of the claim (interior grid cell, `y = terrainHeightAtXZ -
100`), and the pass does reposition it to `terrainHeightAtXZ +
size*0.8`, but because its incoming velocity points along the normal
the post-bounce velocity has `velocity·normal < 0` — the claim's
unconditional `velocity·normal ≥ 0` fails. -/
theorem terrainBounce_resolution_counterexample :
    (0 ≤ gridCoord 2 2 upParticle.position.x ∧
      gridCoord 2 2 upParticle.position.x < (2 : ℤ) - 1 ∧
      0 ≤ gridCoord 2 2 upParticle.position.z ∧
      gridCoord 2 2 upParticle.position.z < (2 : ℤ) - 1) ∧
    upParticle.position.y =
      bilinearHeight flatTerrain 0 0 upParticle.position.x upParticle.position.z - 100 ∧
    (applyTerrainBounce sqFlat 20 1 100 flatTerrain 2 2 upParticle).position.y =
      bilinearHeight flatTerrain 0 0 upParticle.position.x upParticle.position.z +
        upParticle.size * (4/5) ∧
    vdot (applyTerrainBounce sqFlat 20 1 100 flatTerrain 2 2 upParticle).velocity
      (cellNormal sqFlat flatTerrain 0 0) < 0 :=
  ⟨of_decide_eq_true (by with_unfolding_all rfl),
   of_decide_eq_true (by with_unfolding_all rfl),
   of_decide_eq_true (by with_unfolding_all rfl),
   of_decide_eq_true (by with_unfolding_all rfl)⟩

/-- `upParticle` with the velocity pointing down into the surface. -/
def downParticle : Particle := { upParticle with velocity := ⟨0, -10, 0⟩ }

set_option maxRecDepth 40000 in
/-- Witness for the amended C3 on `downParticle` over `flatTerrain`. -/
theorem terrainBounce_resolution_witness :
    (applyTerrainBounce sqFlat 20 1 100 flatTerrain 2 2 downParticle).position.y =
      bilinearHeight flatTerrain (gridCoord 2 2 downParticle.position.x).toNat
        (gridCoord 2 2 downParticle.position.z).toNat
        downParticle.position.x downParticle.position.z +
        downParticle.size * (4/5) ∧
    0 ≤ vdot (applyTerrainBounce sqFlat 20 1 100 flatTerrain 2 2 downParticle).velocity
      (cellNormal sqFlat flatTerrain (gridCoord 2 2 downParticle.position.x).toNat
        (gridCoord 2 2 downParticle.position.z).toNat) :=
  terrainBounce_resolution sqFlat flatTerrain 2 2 1 100 20 downParticle
    (of_decide_eq_true (by with_unfolding_all rfl))
    (of_decide_eq_true (by with_unfolding_all rfl))
    (of_decide_eq_true (by with_unfolding_all rfl))
    (of_decide_eq_true (by with_unfolding_all rfl))
    (of_decide_eq_true (by with_unfolding_all rfl))
    (of_decide_eq_true (by with_unfolding_all rfl))
    (of_decide_eq_true (by with_unfolding_all rfl))

/-! ## C4/C5: population and connection-graph invariants -/

/-- Every connection references valid particle indices. -/
def connsValid (om : OrganicModel) : Prop :=
  ∀ c ∈ om.connections,
    c.fromIndex < om.particles.length ∧ c.toIndex < om.particles.length

theorem foldl_length_eq {α : Type} (f : List Particle → α → List Particle)
    (hf : ∀ ps a, (f ps a).length = ps.length) :
    ∀ (l : List α) (ps : List Particle), (l.foldl f ps).length = ps.length := by
  intro l
  induction l with
  | nil => intro ps; rfl
  | cons a l ih =>
    intro ps
    rw [List.foldl_cons, ih, hf]

theorem repulsePair_length (sq : ℚ → ℚ) (i j : ℕ) (ps : List Particle) :
    (repulsePair sq i j ps).length = ps.length := by
  simp only [repulsePair]
  split
  · rw [List.length_set, List.length_set]
  · rfl

theorem repulsionPass_length (sq : ℚ → ℚ) (ps : List Particle) :
    (repulsionPass sq ps).length = ps.length := by
  unfold repulsionPass
  refine foldl_length_eq _ ?_ _ _
  intro ps' i
  refine foldl_length_eq _ ?_ _ _
  intro ps'' j
  split
  · exact repulsePair_length sq i j ps''
  · rfl

theorem physicsList_length (sq : ℚ → ℚ) (noise : ℚ → ℚ → ℚ) (rand : ℕ → ℚ)
    (fc : ℕ) (prm : MappedParams) (fp : ForceParams) (om : OrganicModel) :
    ∀ (ps : List Particle) (idx : ℕ),
      (physicsList sq noise rand fc prm fp om ps idx).1.length = ps.length := by
  intro ps
  induction ps with
  | nil => intro idx; rfl
  | cons p rest ih =>
    intro idx
    unfold physicsList
    simp only [List.length_cons, ih]

theorem applyConstraint_length (sq : ℚ → ℚ) (ps : List Particle) (c : Connection) :
    (applyConstraint sq ps c).length = ps.length := by
  simp only [applyConstraint]
  split
  · split
    · rw [List.length_set, List.length_set]
    · rfl
  · rfl

theorem constraintsPhase_length (sq : ℚ → ℚ) (conns : List Connection)
    (ps : List Particle) : (constraintsPhase sq conns ps).length = ps.length :=
  foldl_length_eq _ (applyConstraint_length sq) conns ps

theorem transferPositions_length :
    ∀ (ns os : List Particle), (transferPositions ns os).length = ns.length := by
  intro ns
  induction ns with
  | nil => intro os; cases os <;> rfl
  | cons n ns ih =>
    intro os
    cases os with
    | nil => rfl
    | cons o os => simp only [transferPositions, List.length_cons, ih]

theorem spawnList_length (noise : ℚ → ℚ → ℚ) (rand : ℕ → ℚ) (ts th : ℚ) :
    ∀ (n : ℕ) (idx : ℕ), (spawnList noise rand ts th n idx).1.length = n := by
  intro n
  induction n with
  | zero => intro idx; rfl
  | succ n ih =>
    intro idx
    unfold spawnList
    simp only [List.length_cons, ih]

theorem connectionsForParticle_mem (rand : ℕ → ℚ) (i : ℕ) :
    ∀ (chosen : List (ℕ × ℚ)) (idx : ℕ),
      ∀ c ∈ (connectionsForParticle rand idx i chosen).1,
        c.fromIndex = i ∧ ∃ d, (c.toIndex, d) ∈ chosen := by
  intro chosen
  induction chosen with
  | nil => intro idx c hc; exact absurd hc (List.not_mem_nil c)
  | cons jd rest ih =>
    intro idx c hc
    rw [connectionsForParticle] at hc
    rcases List.mem_cons.mp hc with h | h
    · subst h
      exact ⟨rfl, jd.2, by rw [List.mem_cons]; left; rfl⟩
    · obtain ⟨h1, d, h2⟩ := ih (idx + 1) c h
      exact ⟨h1, d, List.mem_cons_of_mem _ h2⟩

theorem createConnectionsAux_valid (sq : ℚ → ℚ) (rand : ℕ → ℚ) (cd : ℚ)
    (ps : List Particle) :
    ∀ (is : List ℕ) (idx : ℕ), (∀ i ∈ is, i < ps.length) →
      ∀ c ∈ (createConnectionsAux sq rand cd ps idx is).1,
        c.fromIndex < ps.length ∧ c.toIndex < ps.length := by
  intro is
  induction is with
  | nil => intro idx _ c hc; exact absurd hc (List.not_mem_nil c)
  | cons i rest ih =>
    intro idx hbound c hc
    rw [createConnectionsAux] at hc
    rcases List.mem_append.mp hc with h | h
    · obtain ⟨h1, d, h2⟩ := connectionsForParticle_mem rand i _ idx c h
      constructor
      · rw [h1]
        exact hbound i (List.mem_cons_self i rest)
      · have h3 := List.mem_of_mem_take h2
        have h4 := (List.mergeSort_perm _ _).mem_iff.mp h3
        obtain ⟨j, hj, hje⟩ := List.mem_map.mp h4
        have hj2 := List.mem_range.mp (List.mem_of_mem_filter hj)
        have h5 : c.toIndex = j := (congrArg Prod.fst hje).symm
        rw [h5]
        exact hj2
    · exact ih _ (fun i hi => hbound i (List.mem_cons_of_mem _ hi)) c h

theorem createConnections_valid (sq : ℚ → ℚ) (rand : ℕ → ℚ) (idx : ℕ) (cd : ℚ)
    (ps : List Particle) :
    ∀ c ∈ (createConnections sq rand idx cd ps).1,
      c.fromIndex < ps.length ∧ c.toIndex < ps.length := by
  unfold createConnections
  split
  · intro c hc; exact absurd hc (List.not_mem_nil c)
  · exact createConnectionsAux_valid sq rand cd ps _ idx
      (fun i hi => List.mem_range.mp hi)

theorem connsValid_replace (om : OrganicModel) (ps : List Particle)
    (h : connsValid om) (hl : ps.length = om.particles.length) :
    connsValid { om with particles := ps } := by
  intro c hc
  rw [show ({ om with particles := ps } : OrganicModel).connections = om.connections
    from rfl] at hc
  simp only [hl]
  exact h c hc

theorem terrainPhase_connsValid (noise : ℚ → ℚ → ℚ) (om : OrganicModel) (m : ℚ)
    (h : connsValid om) : connsValid (terrainPhase noise om m) := by
  unfold terrainPhase
  split
  · exact fun c hc => h c hc
  · exact h

theorem initOrganicModel_connsValid (sq : ℚ → ℚ) (noise : ℚ → ℚ → ℚ)
    (rand : ℕ → ℚ) (idx : ℕ) (om : OrganicModel) :
    connsValid (initOrganicModel sq noise rand idx om).1 := by
  intro c hc
  exact createConnections_valid sq rand _ om.connectionDensity _ c hc

/-- The inner dead branch never runs: `densityFire` is a full
reinitialisation followed by the position/velocity transfer. -/
theorem densityFire_eq (sq : ℚ → ℚ) (noise : ℚ → ℚ → ℚ) (rand : ℕ → ℚ) (idx : ℕ)
    (om : OrganicModel) (pd cd : ℚ) :
    densityFire sq noise rand idx om pd cd =
      ({ (initOrganicModel sq noise rand idx
            { om with particleDensity := pd, connectionDensity := cd }).1 with
          particles := transferPositions
            (initOrganicModel sq noise rand idx
              { om with particleDensity := pd, connectionDensity := cd }).1.particles
            om.particles },
        (initOrganicModel sq noise rand idx
          { om with particleDensity := pd, connectionDensity := cd }).2) := by
  simp only [densityFire, sub_self, abs_zero]
  rw [if_neg (by norm_num : ¬ ((1:ℚ)/10 < 0))]

theorem densityPhase_connsValid (sq : ℚ → ℚ) (noise : ℚ → ℚ → ℚ) (rand : ℕ → ℚ)
    (idx : ℕ) (om : OrganicModel) (pd cd : ℚ) (h : connsValid om) :
    connsValid (densityPhase sq noise rand idx om pd cd).1 := by
  unfold densityPhase
  split
  · rw [densityFire_eq]
    intro c hc
    have hv := initOrganicModel_connsValid sq noise rand idx
      { om with particleDensity := pd, connectionDensity := cd } c hc
    simpa [transferPositions_length] using hv
  · exact h

theorem addPhase_connsValid (sq : ℚ → ℚ) (rand : ℕ → ℚ) (idx : ℕ)
    (om : OrganicModel) (h : connsValid om) :
    connsValid (addPhase sq rand idx om).1 := by
  unfold addPhase
  split
  · split
    · intro c hc
      exact createConnections_valid sq rand idx om.connectionDensity _ c hc
    · intro c hc
      exact absurd hc (List.not_mem_nil c)
  · exact h

theorem removePhase_connsValid (sq : ℚ → ℚ) (rand : ℕ → ℚ) (idx : ℕ)
    (om : OrganicModel) (h : connsValid om) :
    connsValid (removePhase sq rand idx om).1 := by
  unfold removePhase
  split
  · split
    · intro c hc
      exact createConnections_valid sq rand idx om.connectionDensity _ c hc
    · intro c hc
      exact absurd hc (List.not_mem_nil c)
  · exact h

theorem topUpPhase_connsValid (sq : ℚ → ℚ) (noise : ℚ → ℚ → ℚ) (rand : ℕ → ℚ)
    (idx : ℕ) (om : OrganicModel) (h : connsValid om) :
    connsValid (topUpPhase sq noise rand idx om).1 := by
  unfold topUpPhase
  split
  · split
    · intro c hc
      exact createConnections_valid sq rand _ om.connectionDensity _ c hc
    · intro c hc
      exact absurd hc (List.not_mem_nil c)
  · exact h

theorem repulsionPhase_connsValid (sq : ℚ → ℚ) (om : OrganicModel)
    (h : connsValid om) : connsValid (repulsionPhase sq om) :=
  connsValid_replace om _ h (repulsionPass_length sq om.particles)

theorem physicsPhase_connsValid (sq : ℚ → ℚ) (noise : ℚ → ℚ → ℚ) (rand : ℕ → ℚ)
    (fc : ℕ) (prm : MappedParams) (fp : ForceParams) (om : OrganicModel) (idx : ℕ)
    (h : connsValid om) :
    connsValid (physicsPhase sq noise rand fc prm fp om idx).1 :=
  connsValid_replace om _ h (physicsList_length sq noise rand fc prm fp om om.particles idx)

theorem constraintsStep_connsValid (sq : ℚ → ℚ) (om : OrganicModel)
    (h : connsValid om) : connsValid (constraintsStep sq om) :=
  connsValid_replace om _ h (constraintsPhase_length sq om.connections om.particles)

/-- C5: every connection's `from`/`to` fields are valid indices into
the current particle array after a completed tick (including any
add/remove batch and the rebuild that follows), provided they were
valid before the tick. -/
theorem connections_valid_after_tick (sq : ℚ → ℚ) (noise : ℚ → ℚ → ℚ)
    (rand : ℕ → ℚ) (fc : ℕ) (st : SimState) (h : connsValid st.organic) :
    connsValid (updateOrganicModel sq noise rand fc st).organic := by
  unfold updateOrganicModel
  split
  · exact topUpPhase_connsValid _ _ _ _ _
      (removePhase_connsValid _ _ _ _
        (addPhase_connsValid _ _ _ _
          (constraintsStep_connsValid _ _
            (physicsPhase_connsValid _ _ _ _ _ _ _ _
              (repulsionPhase_connsValid _ _
                (densityPhase_connsValid _ _ _ _ _ _ _
                  (terrainPhase_connsValid _ _ _ h)))))))
  · exact h

theorem terrainPhase_fields (noise : ℚ → ℚ → ℚ) (om : OrganicModel) (m : ℚ) :
    (terrainPhase noise om m).particles = om.particles ∧
    (terrainPhase noise om m).minParticles = om.minParticles ∧
    (terrainPhase noise om m).numParticles = om.numParticles ∧
    (terrainPhase noise om m).particleDensity = om.particleDensity ∧
    (terrainPhase noise om m).particlesToAdd = om.particlesToAdd ∧
    (terrainPhase noise om m).particlesToRemove = om.particlesToRemove := by
  unfold terrainPhase
  split <;> exact ⟨rfl, rfl, rfl, rfl, rfl, rfl⟩

theorem densityPhase_fields (sq : ℚ → ℚ) (noise : ℚ → ℚ → ℚ) (rand : ℕ → ℚ)
    (idx : ℕ) (om : OrganicModel) (pd cd : ℚ) :
    (densityPhase sq noise rand idx om pd cd).1.minParticles = om.minParticles ∧
    (densityPhase sq noise rand idx om pd cd).1.particlesToAdd = om.particlesToAdd ∧
    (densityPhase sq noise rand idx om pd cd).1.particlesToRemove =
      om.particlesToRemove := by
  unfold densityPhase
  split
  · rw [densityFire_eq]
    exact ⟨rfl, rfl, rfl⟩
  · exact ⟨rfl, rfl, rfl⟩

theorem repulsionPhase_fields (sq : ℚ → ℚ) (om : OrganicModel) :
    (repulsionPhase sq om).minParticles = om.minParticles ∧
    (repulsionPhase sq om).particlesToAdd = om.particlesToAdd ∧
    (repulsionPhase sq om).particlesToRemove = om.particlesToRemove :=
  ⟨rfl, rfl, rfl⟩

theorem initOrganicModel_particles_length (sq : ℚ → ℚ) (noise : ℚ → ℚ → ℚ)
    (rand : ℕ → ℚ) (idx : ℕ) (om : OrganicModel) :
    (initOrganicModel sq noise rand idx om).1.particles.length =
      (⌊(om.numParticles : ℚ) * om.particleDensity⌋).toNat := by
  unfold initOrganicModel
  exact spawnList_length noise rand om.terrainSize om.terrainHeight _ idx

theorem densityPhase_length_fire (sq : ℚ → ℚ) (noise : ℚ → ℚ → ℚ) (rand : ℕ → ℚ)
    (idx : ℕ) (om : OrganicModel) (pd cd : ℚ)
    (hfire : 1/10 < |om.particleDensity - pd|) :
    (densityPhase sq noise rand idx om pd cd).1.particles.length =
      (⌊(om.numParticles : ℚ) * pd⌋).toNat := by
  unfold densityPhase
  rw [if_pos (Or.inl hfire), densityFire_eq]
  show (transferPositions _ _).length = _
  rw [transferPositions_length, initOrganicModel_particles_length]

theorem repulsionPhase_length (sq : ℚ → ℚ) (om : OrganicModel) :
    (repulsionPhase sq om).particles.length = om.particles.length :=
  repulsionPass_length sq om.particles

theorem physicsPhase_fields (sq : ℚ → ℚ) (noise : ℚ → ℚ → ℚ) (rand : ℕ → ℚ)
    (fc : ℕ) (prm : MappedParams) (fp : ForceParams) (om : OrganicModel) (idx : ℕ) :
    (physicsPhase sq noise rand fc prm fp om idx).1.particles.length =
      om.particles.length ∧
    (physicsPhase sq noise rand fc prm fp om idx).1.minParticles = om.minParticles ∧
    (physicsPhase sq noise rand fc prm fp om idx).1.particlesToAdd =
      om.particlesToAdd ∧
    (physicsPhase sq noise rand fc prm fp om idx).1.particlesToRemove =
      om.particlesToRemove :=
  ⟨physicsList_length sq noise rand fc prm fp om om.particles idx, rfl, rfl, rfl⟩

theorem constraintsStep_length (sq : ℚ → ℚ) (om : OrganicModel) :
    (constraintsStep sq om).particles.length = om.particles.length :=
  constraintsPhase_length sq om.connections om.particles

theorem addPhase_noop (sq : ℚ → ℚ) (rand : ℕ → ℚ) (idx : ℕ) (om : OrganicModel)
    (h : om.particlesToAdd = []) : addPhase sq rand idx om = (om, idx) := by
  unfold addPhase
  rw [if_neg]
  rw [h]
  exact lt_irrefl 0

theorem removePhase_noop (sq : ℚ → ℚ) (rand : ℕ → ℚ) (idx : ℕ) (om : OrganicModel)
    (h : om.particlesToRemove = []) : removePhase sq rand idx om = (om, idx) := by
  unfold removePhase
  rw [if_neg]
  rw [h]
  exact lt_irrefl 0

theorem topUpPhase_noop (sq : ℚ → ℚ) (noise : ℚ → ℚ → ℚ) (rand : ℕ → ℚ) (idx : ℕ)
    (om : OrganicModel) (h : ¬ om.particles.length < om.minParticles) :
    topUpPhase sq noise rand idx om = (om, idx) := by
  unfold topUpPhase
  rw [if_neg h]

theorem addPhase_minParticles (sq : ℚ → ℚ) (rand : ℕ → ℚ) (idx : ℕ)
    (om : OrganicModel) : (addPhase sq rand idx om).1.minParticles = om.minParticles := by
  unfold addPhase
  split <;> rfl

theorem removePhase_minParticles (sq : ℚ → ℚ) (rand : ℕ → ℚ) (idx : ℕ)
    (om : OrganicModel) :
    (removePhase sq rand idx om).1.minParticles = om.minParticles := by
  unfold removePhase
  split <;> rfl

theorem topUpPhase_length_ge (sq : ℚ → ℚ) (noise : ℚ → ℚ → ℚ) (rand : ℕ → ℚ)
    (idx : ℕ) (om : OrganicModel) :
    om.minParticles ≤ (topUpPhase sq noise rand idx om).1.particles.length := by
  unfold topUpPhase
  split
  · show om.minParticles ≤ (om.particles ++
      (spawnList noise rand om.terrainSize om.terrainHeight
        (om.minParticles - om.particles.length) idx).1).length
    rw [List.length_append, spawnList_length]
    omega
  · rename_i hnot
    exact Nat.le_of_not_lt hnot

theorem constraintsStep_fields (sq : ℚ → ℚ) (om : OrganicModel) :
    (constraintsStep sq om).minParticles = om.minParticles ∧
    (constraintsStep sq om).particlesToAdd = om.particlesToAdd ∧
    (constraintsStep sq om).particlesToRemove = om.particlesToRemove :=
  ⟨rfl, rfl, rfl⟩

/-- C4: (1) after every completed (running) tick, the particle count is
at least `minParticles` — the synchronous end-of-tick top-up respawns
whenever the population falls below the minimum; (2) on a tick whose
mapped particle-density parameter differs from the stored density by
more than the 0.1 threshold (with empty mutation queues, as in every
reachable state), the population is reinitialised to exactly
`floor(numParticles × density)` within that one tick. -/
theorem particle_population (sq : ℚ → ℚ) (noise : ℚ → ℚ → ℚ) (rand : ℕ → ℚ)
    (fc : ℕ) (st : SimState) (hrun : st.running = true) :
    st.organic.minParticles ≤
      (updateOrganicModel sq noise rand fc st).organic.particles.length ∧
    (st.organic.particlesToAdd = [] → st.organic.particlesToRemove = [] →
      1/10 < |st.organic.particleDensity -
        (mapParams (smoothGestureValues st.midi)).particleDensity| →
      st.organic.minParticles ≤ (⌊(st.organic.numParticles : ℚ) *
        (mapParams (smoothGestureValues st.midi)).particleDensity⌋).toNat →
      (updateOrganicModel sq noise rand fc st).organic.particles.length =
        (⌊(st.organic.numParticles : ℚ) *
          (mapParams (smoothGestureValues st.midi)).particleDensity⌋).toNat) := by
  constructor
  · unfold updateOrganicModel
    rw [if_pos hrun]
    refine le_trans (le_of_eq ?_) (topUpPhase_length_ge _ _ _ _ _)
    rw [removePhase_minParticles, addPhase_minParticles,
      (constraintsStep_fields _ _).1, (physicsPhase_fields _ _ _ _ _ _ _ _).2.1,
      (repulsionPhase_fields _ _).1, (densityPhase_fields _ _ _ _ _ _ _).1,
      (terrainPhase_fields _ _ _).2.1]
  · intro hAdd hRem hfire hmin
    unfold updateOrganicModel
    rw [if_pos hrun]
    show (topUpPhase _ _ _ _ _).1.particles.length = _
    set sv := smoothGestureValues st.midi with hsv
    set prm := mapParams sv with hprm
    set om1 := terrainPhase noise st.organic prm.terrainHeight with hom1
    set d := densityPhase sq noise rand st.randIdx om1 prm.particleDensity
      prm.connectionDensity with hdd
    set om3 := repulsionPhase sq d.1 with hom3
    set ph := physicsPhase sq noise rand fc prm (forcesPhase sv) om3 d.2 with hph
    set om5 := constraintsStep sq ph.1 with hom5
    have hfire1 : 1/10 < |om1.particleDensity - prm.particleDensity| := by
      rw [hom1, (terrainPhase_fields _ _ _).2.2.2.1]
      exact hfire
    have hA5 : om5.particlesToAdd = [] := by
      rw [hom5, (constraintsStep_fields _ _).2.1, hph,
        (physicsPhase_fields _ _ _ _ _ _ _ _).2.2.1, hom3,
        (repulsionPhase_fields _ _).2.1, hdd,
        (densityPhase_fields _ _ _ _ _ _ _).2.1, hom1,
        (terrainPhase_fields _ _ _).2.2.2.2.1]
      exact hAdd
    have hR5 : om5.particlesToRemove = [] := by
      rw [hom5, (constraintsStep_fields _ _).2.2, hph,
        (physicsPhase_fields _ _ _ _ _ _ _ _).2.2.2, hom3,
        (repulsionPhase_fields _ _).2.2, hdd,
        (densityPhase_fields _ _ _ _ _ _ _).2.2, hom1,
        (terrainPhase_fields _ _ _).2.2.2.2.2]
      exact hRem
    have hL5 : om5.particles.length =
        (⌊(st.organic.numParticles : ℚ) * prm.particleDensity⌋).toNat := by
      rw [hom5, constraintsStep_length, hph,
        (physicsPhase_fields _ _ _ _ _ _ _ _).1, hom3, repulsionPhase_length, hdd,
        densityPhase_length_fire sq noise rand st.randIdx om1 prm.particleDensity
          prm.connectionDensity hfire1,
        hom1, (terrainPhase_fields _ _ _).2.2.1]
    have hM5 : om5.minParticles = st.organic.minParticles := by
      rw [hom5, (constraintsStep_fields _ _).1, hph,
        (physicsPhase_fields _ _ _ _ _ _ _ _).2.1, hom3,
        (repulsionPhase_fields _ _).1, hdd,
        (densityPhase_fields _ _ _ _ _ _ _).1, hom1,
        (terrainPhase_fields _ _ _).2.1]
    have hT5 : ¬ om5.particles.length < om5.minParticles := by
      rw [hL5, hM5]
      omega
    simp only [addPhase_noop _ _ _ _ hA5, removePhase_noop _ _ _ _ hR5]
    rw [topUpPhase_noop _ _ _ _ _ hT5]
    exact hL5

/-- Concrete state for the C4 witness: 5 nominal particles, minimum 1,
stored density 0 so the mapped density (3/5 at all-0.5 controls)
triggers the reinitialisation branch. -/
def stC4 : SimState :=
  { running := true
    midi := { faderValues := fun _ => 1/2, smoothedValues := fun _ => 1/2,
              smoothingFactor := 3/20 }
    camera := { zRotation := 0, xRotation := 0, yRotation := 3/4 }
    forces := { vortexStrength := 0, gravityStrength := 10 }
    organic :=
      { particles := []
        numParticles := 5
        connections := []
        terrain := []
        terrainResolution := 2
        terrainSize := 2
        terrainHeight := 110
        particleDensity := 0
        connectionDensity := 1/2
        particlesToAdd := []
        particlesToRemove := []
        minParticles := 1 }
    randIdx := 0 }

/-- Witness for C4 at `stC4`. -/
theorem particle_population_witness :
    stC4.organic.minParticles ≤
      (updateOrganicModel (fun _ => 0) (fun _ _ => 1/2) (fun _ => 1/2) 7
        stC4).organic.particles.length ∧
    (updateOrganicModel (fun _ => 0) (fun _ _ => 1/2) (fun _ => 1/2) 7
        stC4).organic.particles.length =
      (⌊(stC4.organic.numParticles : ℚ) *
        (mapParams (smoothGestureValues stC4.midi)).particleDensity⌋).toNat :=
  ⟨(particle_population (fun _ => 0) (fun _ _ => 1/2) (fun _ => 1/2) 7 stC4 rfl).1,
   (particle_population (fun _ => 0) (fun _ _ => 1/2) (fun _ => 1/2) 7 stC4 rfl).2
     rfl rfl
     (of_decide_eq_true (by with_unfolding_all rfl))
     (of_decide_eq_true (by with_unfolding_all rfl))⟩

/-- Concrete state for the C5 witness: two particles joined by one
connection, with no phase churn. -/
def stC5 : SimState :=
  { running := true
    midi := { faderValues := fun _ => 1/2, smoothedValues := fun _ => 1/2,
              smoothingFactor := 3/20 }
    camera := { zRotation := 0, xRotation := 0, yRotation := 3/4 }
    forces := { vortexStrength := 0, gravityStrength := 10 }
    organic :=
      { particles := [upParticle, downParticle]
        numParticles := 150
        connections := [⟨0, 1, 1/50, 30⟩]
        terrain := flatTerrain
        terrainResolution := 2
        terrainSize := 2
        terrainHeight := 110
        particleDensity := 3/5
        connectionDensity := 1/2
        particlesToAdd := []
        particlesToRemove := []
        minParticles := 2 }
    randIdx := 0 }

/-- Witness for C5 at `stC5`. -/
theorem connections_valid_after_tick_witness :
    connsValid (updateOrganicModel (fun _ => 0) (fun _ _ => 1/2) (fun _ => 1/2) 7
      stC5).organic :=
  connections_valid_after_tick (fun _ => 0) (fun _ _ => 1/2) (fun _ => 1/2) 7 stC5
    (by
      intro c hc
      have he : c = ⟨0, 1, 1/50, 30⟩ := List.mem_singleton.mp hc
      subst he
      show (0:ℕ) < 2 ∧ (1:ℕ) < 2
      exact ⟨by norm_num, by norm_num⟩)
